import Mathlib

/-!
Verification of the SonarQube analysis agent's decision pipeline.

This file gives a shallow embedding of the pure decision logic of the
repository (risk assessment, fix validation, false-positive response
parsing, the orchestrator's per-finding dispositions, and the hourly
rate-limit window), and proves or refutes the specified properties.

Conventions of the embedding:
* Python strings are Lean `String`s; character-level scanning works on
  `String.data`.  All scanned inputs in the claims are ASCII, for which
  Lean's `Char.toLower` / `Char.isWhitespace` / `Char.isAlphanum` agree
  with Python's `str.lower`, `\s` and the ASCII fragment of `\w`.
* Python floats are modelled as exact rationals `ℚ`.  Every comparison
  a claim depends on (thresholds 0.85 / 0.70 / 0.90, breakpoints 8/6/4,
  the 0.5 size factor) is exact in binary floating point, so the
  rational model agrees with the code on these.
* The language-model backend is external: a model call is an abstract
  `Except String String` (an exception or the raw response text), and
  `json.loads` plus field coercion is an abstract parse function
  returning `Option` of a record of optional fields (Python's
  `dict.get` defaults).
-/

namespace SonarAgent

/-! ## Character and string helpers -/

/-- The `\x7b` character (left curly brace). -/
def lbrace : Char := Char.ofNat 123

/-- The `\x7d` character (right curly brace). -/
def rbrace : Char := Char.ofNat 125

/-- Left parenthesis. -/
def lparen : Char := Char.ofNat 40

/-- Right parenthesis. -/
def rparen : Char := Char.ofNat 41

/-- Left square bracket. -/
def lbrack : Char := Char.ofNat 91

/-- Right square bracket. -/
def rbrack : Char := Char.ofNat 93

/-- Double-quote character. -/
def dquote : Char := Char.ofNat 34

/-- Single-quote character. -/
def squote : Char := Char.ofNat 39

/-- Backslash character. -/
def backslash : Char := Char.ofNat 92

/-- Newline character. -/
def newlineChar : Char := Char.ofNat 10

/-- Underscore character. -/
def uscore : Char := Char.ofNat 95

/-- Python `str.lower()` (ASCII). -/
def lowerStr (s : String) : String := String.mk (s.data.map Char.toLower)

/-- Is `needle` a contiguous sublist of `hay`? -/
def listIsInfix (needle : List Char) : List Char → Bool
  | [] => needle.isEmpty
  | c :: cs => needle.isPrefixOf (c :: cs) || listIsInfix needle cs

/-- Python's `needle in hay` substring containment. -/
def containsSub (hay needle : String) : Bool := listIsInfix needle.data hay.data

/-- Python `s.replace(c, '')`: remove every occurrence of a character. -/
def removeChar (c : Char) (s : String) : String := String.mk (s.data.filter (· ≠ c))

/-- Python `s.count(c)` for a single character. -/
def countChar (s : String) (c : Char) : Nat := s.data.count c

/-- Python `s.endswith(suffix)`. -/
def endsWithSub (s suffix : String) : Bool :=
  suffix.data.reverse.isPrefixOf s.data.reverse

/-- Python `s.strip()`: drop leading and trailing whitespace
(structural recursion, so it reduces in the kernel). -/
def pyStrip (s : String) : String :=
  String.mk (((s.data.dropWhile Char.isWhitespace).reverse.dropWhile
    Char.isWhitespace).reverse)

/-- Index of the first occurrence of `c` (Python `str.find`, as an `Option`). -/
def firstIdxOf (c : Char) : List Char → Option Nat
  | [] => none
  | x :: xs => if x = c then some 0 else (firstIdxOf c xs).map (· + 1)

/-- Index of the last occurrence of `c` (Python `str.rfind`, as an `Option`). -/
def lastIdxOf (c : Char) (cs : List Char) : Option Nat :=
  (firstIdxOf c cs.reverse).map (fun i => cs.length - 1 - i)

/-! ## Risk assessor data model (`analyzers/risk_assessment.py`) -/

/-- The fields of a `SonarQubeFinding` used by the decision logic. -/
structure Finding where
  key : String
  rule_key : String
  severity : String
  file_path : String
deriving DecidableEq, Repr

/-- Rule metadata from the finding source; the analyzers only read the
`type` field, with `""` as the `dict.get` default. -/
structure RuleDetails where
  type : String
deriving DecidableEq, Repr

/-- The `RiskAssessment` dataclass. -/
structure RiskAssessment where
  risk_score : ℚ
  priority : String
  exploitability : Nat
  impact : Nat
  exposure : Nat
  confidence : ℚ
  justification : String
  business_context : String
  recommended_sla : String
deriving DecidableEq, Repr

/-- Table `RiskAssessor.RULE_EXPLOITABILITY`, in source (insertion) order. -/
def RULE_EXPLOITABILITY : List (String × Nat) :=
  [("sql_injection", 10), ("code_injection", 10), ("command_injection", 10),
   ("deserialization", 9),
   ("auth_bypass", 9), ("privilege_escalation", 8), ("session_fixation", 8),
   ("xss", 7), ("path_traversal", 7), ("xxe", 8), ("ssrf", 7),
   ("weak_crypto", 6), ("hardcoded_secret", 6), ("insecure_random", 5),
   ("null_pointer", 3), ("resource_leak", 4), ("race_condition", 5)]

/-- Table `RiskAssessor.HIGH_IMPACT_PATHS` (each regex is a plain word, so
`re.search` is substring containment). -/
def HIGH_IMPACT_PATHS : List String :=
  ["payment", "auth", "login", "user", "account", "billing", "order",
   "transaction", "admin", "security"]

/-- Table `RiskAssessor.MEDIUM_IMPACT_PATHS`. -/
def MEDIUM_IMPACT_PATHS : List String := ["api", "service", "controller", "handler"]

/-- Table `RiskAssessor.LOW_IMPACT_PATHS`. -/
def LOW_IMPACT_PATHS : List String := ["test", "mock", "util", "helper", "config"]

/-- The `sensitive_keywords` table of `_calculate_impact`. -/
def sensitive_keywords : List (String × Nat) :=
  [("password", 9), ("credit_card", 10), ("ssn", 10), ("encrypt", 8),
   ("decrypt", 8), ("token", 7), ("session", 7), ("database", 7), ("sql", 7)]

/-- The `api_indicators` table of `_calculate_exposure`. -/
def api_indicators : List String :=
  ["@RestController", "@GetMapping", "@PostMapping", "@RequestMapping",
   "@Path", "app.route", "@app.get", "router.get"]

/-- The `auth_patterns` table of `_calculate_exposure`. -/
def auth_patterns : List String :=
  ["@PreAuthorize", "@Secured", "@RolesAllowed", "require_login",
   "login_required", "@login_required"]

/-- The severity-default table at the end of `_calculate_exploitability`
(`severity_map.get(finding.severity, 5)`). -/
def severityDefault (sev : String) : Nat :=
  if sev = "CRITICAL" then 8
  else if sev = "HIGH" then 6
  else if sev = "MEDIUM" then 4
  else if sev = "LOW" then 2
  else 5

/-- Embedding of `RiskAssessor._calculate_exploitability`. -/
def calculate_exploitability (finding : Finding) (rule_details : Option RuleDetails) : Nat :=
  let rule_key := lowerStr finding.rule_key
  let target := removeChar '-' (removeChar ':' rule_key)
  match RULE_EXPLOITABILITY.find? (fun p => containsSub target (removeChar uscore p.1)) with
  | some p => p.2
  | none =>
    match rule_details with
    | some rd =>
      let rule_type := lowerStr rd.type
      if containsSub rule_type "vulnerability" then 7
      else if containsSub rule_type "security" then 6
      else if containsSub rule_type "bug" then 4
      else severityDefault finding.severity
    | none => severityDefault finding.severity

/-- Embedding of `RiskAssessor._calculate_impact`. -/
def calculate_impact (finding : Finding) (code_context : String) : Nat :=
  let file_path := lowerStr finding.file_path
  let score : Nat := if HIGH_IMPACT_PATHS.any (fun p => containsSub file_path p) then 9 else 5
  let score : Nat :=
    if score = 5 ∧ MEDIUM_IMPACT_PATHS.any (fun p => containsSub file_path p) then 6 else score
  let score : Nat :=
    if LOW_IMPACT_PATHS.any (fun p => containsSub file_path p) then min score 3 else score
  let code_lower := lowerStr code_context
  let score : Nat := sensitive_keywords.foldl
    (fun s kw => if containsSub code_lower kw.1 then max s kw.2 else s) score
  min score 10

/-- Embedding of `RiskAssessor._calculate_exposure`. -/
def calculate_exposure (finding : Finding) (code_context : String) : Nat :=
  let score : Nat := if api_indicators.any (fun p => containsSub code_context p) then 9 else 5
  let score : Nat :=
    if containsSub code_context "private " || containsSub code_context "internal " then
      min score 5
    else score
  let score : Nat := if containsSub (lowerStr finding.file_path) "test" then 1 else score
  let score : Nat :=
    if auth_patterns.any (fun p => containsSub code_context p) then max 1 (score - 3) else score
  min score 10

/-- Embedding of `RiskAssessor._calculate_priority`. -/
def calculate_priority (risk_score : ℚ) : String :=
  if risk_score ≥ 8 then "P0"
  else if risk_score ≥ 6 then "P1"
  else if risk_score ≥ 4 then "P2"
  else "P3"

/-- Embedding of `RiskAssessor._calculate_sla`, with the lookup default of 2 weeks. -/
def calculate_sla (priority : String) : String :=
  if priority = "P0" then "24 hours"
  else if priority = "P1" then "1 week"
  else if priority = "P2" then "2 weeks"
  else if priority = "P3" then "1 month"
  else "2 weeks"

/-! ## JSON-in-prose extraction (shared by all three analyzers)

The analyzers strip the response, find the first `\x7b` and the last
`\x7d`, and feed that substring to `json.loads` (the whole stripped
response when the brace window is absent or empty). -/

/-- The string handed to `json.loads` by `_parse_response` /
`_get_contextual_analysis` / `_parse_fix_response`. -/
def extractJson (response : String) : String :=
  let r := pyStrip response
  let cs := r.data
  match firstIdxOf lbrace cs, lastIdxOf rbrace cs with
  | some s, some e => if s < e + 1 then String.mk ((cs.drop s).take (e + 1 - s)) else r
  | _, _ => r

/-- The parsed-JSON fields read by `assess` from the contextual-analysis
dict; each is optional because the code uses `dict.get` defaults. -/
structure CtxDict where
  justification : Option String
  business_context : Option String
  confidence : Option ℚ
deriving DecidableEq, Repr

/-- The fallback dict returned by `_get_contextual_analysis` on any
error during the model call or JSON parsing (note: confidence 0.7). -/
def fallbackCtx : CtxDict :=
  { justification := some "Automated risk assessment based on rule severity and code location"
    business_context := some "Unknown"
    confidence := some (7/10) }

/-- Embedding of `RiskAssessor._get_contextual_analysis`: a model call that may
throw, then JSON extraction and parsing, with the fallback dict on any
failure. -/
def get_contextual_analysis (modelResult : Except String String)
    (jsonParse : String → Option CtxDict) : CtxDict :=
  match modelResult with
  | .error _ => fallbackCtx
  | .ok response =>
    match jsonParse (extractJson response) with
    | some d => d
    | none => fallbackCtx

/-- Embedding of `RiskAssessor.assess`.  Here `exc` models an exception raised anywhere
inside the `try` block (the code catches every `Exception` and returns
a fixed conservative high-risk assessment). -/
def assess (finding : Finding) (code_context : String) (rule_details : Option RuleDetails)
    (modelResult : Except String String) (jsonParse : String → Option CtxDict)
    (exc : Option String) : RiskAssessment :=
  match exc with
  | some e =>
    { risk_score := 7
      priority := "P1"
      exploitability := 7
      impact := 7
      exposure := 7
      confidence := 1/2
      justification := "Assessment error: " ++ e
      business_context := "Unknown"
      recommended_sla := "1 week" }
  | none =>
    let exploitability := calculate_exploitability finding rule_details
    let impact := calculate_impact finding code_context
    let exposure := calculate_exposure finding code_context
    let ctx := get_contextual_analysis modelResult jsonParse
    let confidence := ctx.confidence.getD (8/10)
    let risk_score := (exploitability : ℚ) * impact * exposure / 100 * confidence
    let priority := calculate_priority risk_score
    { risk_score := risk_score
      priority := priority
      exploitability := exploitability
      impact := impact
      exposure := exposure
      confidence := confidence
      justification := ctx.justification.getD ""
      business_context := ctx.business_context.getD ""
      recommended_sla := calculate_sla priority }

/-! ## Fix generator and validator (`analyzers/fix_generator.py`) -/

/-- The `FixValidation` dataclass. -/
structure FixValidation where
  is_safe : Bool
  checks_passed : List String
  checks_failed : List String
  warnings : List String
deriving DecidableEq, Repr

/-- The `FixResult` dataclass (the `diff` field is the textual unified
diff; its content plays no role in any decision). -/
structure FixResult where
  fixed_code : String
  diff : String
  explanation : String
  test_suggestions : List String
  validation : FixValidation
  confidence : ℚ
deriving DecidableEq, Repr

/-- Table `FixGenerator.FIXABLE_PATTERNS`, in source order. -/
def FIXABLE_PATTERNS : List (String × List String) :=
  [("null_pointer", ["S2259", "S2637", "NP_"]),
   ("resource_leak", ["S2095", "OBL_"]),
   ("sql_injection", ["S3649", "S2077", "SQL_"]),
   ("hardcoded_credentials", ["S2068", "S6290"]),
   ("insecure_random", ["S2245", "S2119"]),
   ("path_traversal", ["S2083", "PATH_"]),
   ("weak_crypto", ["S4426", "S5542"])]

/-- Python `str.upper()` (ASCII). -/
def upperStr (s : String) : String := String.mk (s.data.map Char.toUpper)

/-- Embedding of `FixGenerator._identify_pattern`. -/
def identify_pattern (rule_key : String) : Option String :=
  let rule_key_upper := upperStr rule_key
  (FIXABLE_PATTERNS.find? fun p =>
      p.2.any fun indicator => containsSub rule_key_upper (upperStr indicator)).map (·.1)

/-- Embedding of `FixGenerator._detect_language` (extension table, in source order). -/
def fix_detect_language (file_path : String) : String :=
  let extension_map : List (String × String) :=
    [(".java", "java"), (".kt", "kotlin"), (".py", "python"), (".js", "javascript"),
     (".ts", "typescript"), (".go", "go"), (".rs", "rust"), (".cpp", "cpp"),
     (".c", "c"), (".cs", "csharp")]
  match extension_map.find? (fun p => endsWithSub file_path p.1) with
  | some p => p.2
  | none => "unknown"

/-- The languages for which `_has_obvious_syntax_errors` balances
braces and parentheses. -/
def brace_langs : List String :=
  ["java", "javascript", "typescript", "c", "cpp", "csharp", "go"]

/-- Count the occurrences of `q` not immediately preceded by a
backslash, which is what the negative-lookbehind quote regexes of
`_has_obvious_syntax_errors` match; `prev` is the preceding
character, if any. -/
def countUnescapedAux (q : Char) : Option Char → List Char → Nat
  | _, [] => 0
  | prev, c :: cs =>
    (if c = q ∧ prev ≠ some backslash then 1 else 0) + countUnescapedAux q (some c) cs

/-- Count of unescaped occurrences of the quote character `q` in the code, as the
regex-based count in `_has_obvious_syntax_errors` computes it. -/
def countUnescaped (code : String) (q : Char) : Nat := countUnescapedAux q none code.data

/-- Embedding of `FixGenerator._has_obvious_syntax_errors`. -/
def has_obvious_syntax_errors (code : String) (language : String) : Bool :=
  if brace_langs.contains language ∧
      (countChar code lbrace ≠ countChar code rbrace ∨
       countChar code lparen ≠ countChar code rparen) then true
  else if countChar code lbrack ≠ countChar code rbrack then true
  else if countUnescaped code dquote % 2 ≠ 0 ∨ countUnescaped code squote % 2 ≠ 0 then true
  else false

/-- Python line count, the length of `s.splitlines()`, for strings whose line breaks are `\n`
(the only break the pipeline produces). -/
def pyLineCount (s : String) : Nat :=
  if s.data.isEmpty then 0
  else s.data.count newlineChar + (if s.data.getLast? = some newlineChar then 0 else 1)

/-- The `error_handling_keywords` list of `_validate_fix`. -/
def error_handling_keywords : List String :=
  ["try", "catch", "except", "finally", "throw", "raise"]

/-- Embedding of the sum over keywords present in the lower-cased text:
the number of DISTINCT keywords present, not occurrence count. -/
def errorHandlingCount (s : String) : Nat :=
  (error_handling_keywords.filter (fun kw => containsSub (lowerStr s) kw)).length

/-- ASCII fragment of Python's `\w`. -/
def isWordChar (c : Char) : Bool := c.isAlphanum || c = uscore

/-- Try to match the regex `\w+\s*=` at the head of the list; on a
match return the remainder after the `=`.  (Backtracking cannot help
this pattern: word chars, whitespace and `=` are pairwise disjoint.) -/
def reMatchAssign (cs : List Char) : Option (List Char) :=
  let w := cs.takeWhile isWordChar
  if w.isEmpty then none
  else
    match (cs.drop w.length).dropWhile Char.isWhitespace with
    | c :: r => if c = Char.ofNat 61 then some r else none
    | [] => none

/-- Left-to-right non-overlapping scan of `re.findall`, with fuel
(every step consumes at least one character, so fuel = length is
enough). -/
def countAssignAux : Nat → List Char → Nat
  | 0, _ => 0
  | _ + 1, [] => 0
  | fuel + 1, c :: cs =>
    match reMatchAssign (c :: cs) with
    | some rest => 1 + countAssignAux fuel rest
    | none => countAssignAux fuel cs

/-- Count of regex matches of one-or-more word characters, optional whitespace, then
an equals sign, as counted by check 3 of `_validate_fix`. -/
def countAssignments (s : String) : Nat := countAssignAux s.data.length s.data

/-- Embedding of `FixGenerator._validate_fix`.  The two float comparisons
(`abs(Δ) > original*0.5` and `fixed < original*0.8`) are modelled by
the exact integer inequalities `2*|Δ| > original` and
`5*fixed < 4*original`; both agree with binary floating point at every
integer the claims touch. -/
def validate_fix (original fixed : String) (language : String) : FixValidation :=
  let original_lines := pyLineCount original
  let fixed_lines := pyLineCount fixed
  let c1warn : Bool := 2 * ((fixed_lines : Int) - original_lines).natAbs > original_lines
  let sizeMsg : String :=
    "Significant size change: " ++ toString original_lines ++ " -> " ++
      toString fixed_lines ++ " lines"
  let c2warn : Bool := errorHandlingCount fixed < errorHandlingCount original
  let c3warn : Bool := 5 * countAssignments fixed < 4 * countAssignments original
  let c4fail : Bool := has_obvious_syntax_errors fixed language
  let c5fail : Bool := pyStrip original == pyStrip fixed
  let checks_passed : List String :=
    (if c1warn then [] else ["Code size change is reasonable"]) ++
    (if c2warn then [] else ["Error handling preserved"]) ++
    (if c3warn then [] else ["Logic structure preserved"]) ++
    (if c4fail then [] else ["No obvious syntax errors"]) ++
    (if c5fail then [] else ["Code was modified"])
  let checks_failed : List String :=
    (if c4fail then ["Potential syntax errors detected"] else []) ++
    (if c5fail then ["No changes were made"] else [])
  let warnings : List String :=
    (if c1warn then [sizeMsg] else []) ++
    (if c2warn then ["Error handling may have been removed"] else []) ++
    (if c3warn then ["Significant logic may have been removed"] else [])
  { is_safe := checks_failed.isEmpty && decide (warnings.length < 2)
    checks_passed := checks_passed
    checks_failed := checks_failed
    warnings := warnings }

/-! ## False-positive analyzer (`analyzers/false_positive.py`) -/

/-- The `FalsePositiveAnalysis` dataclass. -/
structure FPAnalysis where
  is_false_positive : Bool
  confidence : ℚ
  reasoning : String
  evidence : List String
  recommendation : String
deriving DecidableEq, Repr

/-- The parsed-JSON fields read by `_parse_response`, each optional
(`dict.get` defaults). -/
structure FPData where
  is_false_positive : Option Bool
  confidence : Option ℚ
  reasoning : Option String
  evidence : Option (List String)
  recommendation : Option String

/-- The conservative result `_parse_response` returns when JSON
parsing fails. -/
def fpParseDefault : FPAnalysis :=
  { is_false_positive := false
    confidence := 0
    reasoning := "Failed to parse analysis result"
    evidence := []
    recommendation := "Manual review required" }

/-- The conservative result `analyze` returns when any exception is
raised during the analysis (model call included). -/
def fpErrorDefault (e : String) : FPAnalysis :=
  { is_false_positive := false
    confidence := 0
    reasoning := "Analysis error: " ++ e
    evidence := []
    recommendation := "Manual review required due to analysis error" }

/-- Embedding of `FalsePositiveDetector._parse_response`: extract the brace window,
parse it as JSON, and build the analysis with `dict.get` defaults. -/
def fp_parse_response (jsonParse : String → Option FPData) (response : String) : FPAnalysis :=
  match jsonParse (extractJson response) with
  | some d =>
    { is_false_positive := d.is_false_positive.getD false
      confidence := d.confidence.getD 0
      reasoning := d.reasoning.getD ""
      evidence := d.evidence.getD []
      recommendation := d.recommendation.getD "" }
  | none => fpParseDefault

/-- Embedding of `FalsePositiveDetector.analyze`: a model call that may throw,
then response parsing; every exception is caught and mapped to the
conservative default. -/
def fp_analyze (modelResult : Except String String)
    (jsonParse : String → Option FPData) : FPAnalysis :=
  match modelResult with
  | .error e => fpErrorDefault e
  | .ok response => fp_parse_response jsonParse response

/-! ## Orchestrator decision logic (`agent/agent_core.py`) -/

/-- The configuration values read via `dict.get` in `agent_core.py`,
with the source's defaults. -/
structure AgentConfig where
  fp_min_confidence : ℚ := 85/100
  fp_auto_mark : Bool := true
  fp_require_review_below : ℚ := 70/100
  fix_min_confidence : ℚ := 90/100
  auto_fix_priorities : List String := ["P0", "P1"]
  max_prs_per_hour : Nat := 5
  max_comments_per_hour : Nat := 20
deriving DecidableEq, Repr

/-- The whole-defaults configuration. -/
def defaultConfig : AgentConfig := {}

/-- The disposition of one finding after `process_finding`'s phases
2–4.  `falsePositive b` records whether the automatic won't-fix
transition was issued (`b`); `noFullFile` is the silent fall-through
when the full file cannot be fetched. -/
inductive Disposition where
  | falsePositive (wontfixTransition : Bool)
  | createPR
  | escalate (reason : String)
  | noFullFile
  | trackOnly
deriving DecidableEq, Repr

/-- The false-positive short-circuit test of `process_finding`
(phase 2): `fp_analysis.is_false_positive and confidence >= min_confidence`. -/
def isFalsePositiveVerdict (cfg : AgentConfig) (fp : FPAnalysis) : Bool :=
  fp.is_false_positive && decide (cfg.fp_min_confidence ≤ fp.confidence)

/-- Does `_handle_false_positive` issue the automatic won't-fix
transition?  (`auto_mark and confidence > require_review_below`.) -/
def wontfixTransition (cfg : AgentConfig) (fp : FPAnalysis) : Bool :=
  cfg.fp_auto_mark && decide (cfg.fp_require_review_below < fp.confidence)

/-- Phases 2–4 of `SonarQubeAgent.process_finding` as a pure decision
function: the false-positive gate, the auto-fix priority gate, and the
fix-result dispatch (PR / "Low confidence fix" / "Complex fix
required").  `full_file` and `fix_result` are the outcomes of the two
fallible sub-calls. -/
def processDecision (cfg : AgentConfig) (fp : FPAnalysis) (assessment : RiskAssessment)
    (full_file : Option String) (fix_result : Option FixResult) : Disposition :=
  if isFalsePositiveVerdict cfg fp then
    .falsePositive (wontfixTransition cfg fp)
  else if cfg.auto_fix_priorities.contains assessment.priority then
    match full_file with
    | some _ =>
      match fix_result with
      | some fr =>
        if fr.validation.is_safe then
          if decide (cfg.fix_min_confidence ≤ fr.confidence) then .createPR
          else .escalate "Low confidence fix"
        else .escalate "Complex fix required"
      | none => .escalate "Complex fix required"
    | none => .noFullFile
  else .trackOnly

/-! ## Rate limiter (`agent_core.py`, `_check_rate_limit` /
`_reset_rate_limits_if_needed`)

Time is a timestamp in seconds (`Nat`); one hour is 3600. -/

/-- The process-wide rate-limit window state. -/
structure RateLimitState where
  prs_created_this_hour : Nat
  comments_posted_this_hour : Nat
  rate_limit_reset_time : Nat
deriving DecidableEq, Repr

/-- Embedding of `_reset_rate_limits_if_needed` at instant `now` (the code calls
`datetime.now()` twice a few microseconds apart; both are `now`
here). -/
def reset_rate_limits_if_needed (now : Nat) (s : RateLimitState) : RateLimitState :=
  if s.rate_limit_reset_time ≤ now then
    { prs_created_this_hour := 0
      comments_posted_this_hour := 0
      rate_limit_reset_time := now + 3600 }
  else s

/-- Embedding of `_check_rate_limit`: reset the window if due, then a pure capacity
check.  Returns the flag and the (possibly reset) state. -/
def check_rate_limit (cfg : AgentConfig) (op : String) (now : Nat) (s : RateLimitState) :
    Bool × RateLimitState :=
  let s := reset_rate_limits_if_needed now s
  if op = "pr" then (decide (s.prs_created_this_hour < cfg.max_prs_per_hour), s)
  else if op = "comment" then
    (decide (s.comments_posted_this_hour < cfg.max_comments_per_hour), s)
  else (true, s)

/-- One externally-visible gated action: the caller checks the limit
and, when allowed, performs the action; `success` records whether the
action succeeded (`create_pull_request` returned a PR object /
`add_comment` returned True).  Note `add_comment` catches every
exception and returns a boolean, which all four comment call sites
discard. -/
inductive RateOp where
  | createPR (now : Nat) (success : Bool)
  | postComment (now : Nat) (success : Bool)
deriving DecidableEq, Repr

/-- The state transition of one gated action, as performed by
`_create_fix_pr` — where the PR counter is success-gated
(`if pr: self.prs_created_this_hour += 1`) — and by the four
comment-posting sites, where the counter is incremented after every
rate-check-passed attempt (`if self._check_rate_limit("comment"):
await add_comment; self.comments_posted_this_hour += 1`), whether or
not `add_comment` reported success. -/
def rateStep (cfg : AgentConfig) (s : RateLimitState) (op : RateOp) : RateLimitState :=
  match op with
  | .createPR now success =>
    let p := check_rate_limit cfg "pr" now s
    if p.1 && success then
      { p.2 with prs_created_this_hour := p.2.prs_created_this_hour + 1 }
    else p.2
  | .postComment now _ =>
    let p := check_rate_limit cfg "comment" now s
    if p.1 then
      { p.2 with comments_posted_this_hour := p.2.comments_posted_this_hour + 1 }
    else p.2

/-- Run a sequence of gated actions. -/
def runOps (cfg : AgentConfig) (s : RateLimitState) (ops : List RateOp) : RateLimitState :=
  ops.foldl (rateStep cfg) s

/-- The instant at which a gated action takes place. -/
def RateOp.time : RateOp → Nat
  | .createPR now _ => now
  | .postComment now _ => now

/-! ## Sample values used by witnesses and counterexamples -/

/-- A finding whose rule matches no exploitability category, no rule
metadata, in a utility file. -/
def sampleFinding : Finding :=
  { key := "AX-1", rule_key := "java:S999", severity := "LOW",
    file_path := "src/util/Helpers.java" }

/-- A negative false-positive analysis (verdict false, confidence 0). -/
def fpNegative : FPAnalysis :=
  { is_false_positive := false, confidence := 0, reasoning := "",
    evidence := [], recommendation := "" }

/-- Scenario A's finding: rule `java:S2259`, severity HIGH, in
`src/main/UserService.java`. -/
def scenarioAFinding : Finding :=
  { key := "finding-a", rule_key := "java:S2259", severity := "HIGH",
    file_path := "src/main/UserService.java" }

/-- Scenario A's code context: no guard, sensitive-keyword or
entry-point markers. -/
def scenarioAContext : String := "int x = y.size();"

/-! ## Claim theorems -/

/-- C1: on the non-error path, the returned `RiskAssessment` satisfies
`risk_score = exploitability * impact * exposure / 100 * confidence`;
`priority` is the step function of `risk_score` with breakpoints
8 → P0, 6 → P1, 4 → P2, else P3; and `recommended_sla` is a function
of `priority` alone (P0 → 24 hours, P1 → 1 week, P2 → 2 weeks,
P3 → 1 month). -/
theorem assess_risk_invariants (finding : Finding) (code_context : String)
    (rule_details : Option RuleDetails) (modelResult : Except String String)
    (jsonParse : String → Option CtxDict) :
    (assess finding code_context rule_details modelResult jsonParse none).risk_score =
      ((assess finding code_context rule_details modelResult jsonParse none).exploitability : ℚ) *
        (assess finding code_context rule_details modelResult jsonParse none).impact *
        (assess finding code_context rule_details modelResult jsonParse none).exposure / 100 *
        (assess finding code_context rule_details modelResult jsonParse none).confidence ∧
    (assess finding code_context rule_details modelResult jsonParse none).priority =
      (if (assess finding code_context rule_details modelResult jsonParse none).risk_score ≥ 8
        then "P0"
        else if (assess finding code_context rule_details modelResult jsonParse none).risk_score ≥ 6
        then "P1"
        else if (assess finding code_context rule_details modelResult jsonParse none).risk_score ≥ 4
        then "P2" else "P3") ∧
    (assess finding code_context rule_details modelResult jsonParse none).recommended_sla =
      (if (assess finding code_context rule_details modelResult jsonParse none).priority = "P0"
        then "24 hours"
        else if (assess finding code_context rule_details modelResult jsonParse none).priority = "P1"
        then "1 week"
        else if (assess finding code_context rule_details modelResult jsonParse none).priority = "P2"
        then "2 weeks" else "1 month") := by
  refine ⟨rfl, rfl, ?_⟩
  have hp : ∀ rs : ℚ, calculate_priority rs = "P0" ∨ calculate_priority rs = "P1" ∨
      calculate_priority rs = "P2" ∨ calculate_priority rs = "P3" := by
    intro rs
    unfold calculate_priority
    split_ifs <;> simp
  have hpr : (assess finding code_context rule_details modelResult jsonParse none).priority =
      calculate_priority
        (assess finding code_context rule_details modelResult jsonParse none).risk_score := rfl
  have hsla : (assess finding code_context rule_details modelResult jsonParse none).recommended_sla =
      calculate_sla
        (assess finding code_context rule_details modelResult jsonParse none).priority := rfl
  rw [hsla, hpr]
  rcases hp (assess finding code_context rule_details modelResult jsonParse none).risk_score with
    h | h | h | h <;> rw [h] <;> rfl

/-- C10: when any exception occurs during assessment, `assess` returns
the fixed conservative high-risk record (risk_score 7.0, P1, 7/7/7,
confidence 0.5, SLA "1 week"); P1 is in the default auto-fix set, so
the pipeline routes such a finding into the automated-fix phase (never
the tracking-only branch) whenever it is not short-circuited as a
false positive. -/
theorem assess_exception_fallback (finding : Finding) (code_context : String)
    (rule_details : Option RuleDetails) (modelResult : Except String String)
    (jsonParse : String → Option CtxDict) (e : String) :
    assess finding code_context rule_details modelResult jsonParse (some e) =
      { risk_score := 7
        priority := "P1"
        exploitability := 7
        impact := 7
        exposure := 7
        confidence := 1/2
        justification := "Assessment error: " ++ e
        business_context := "Unknown"
        recommended_sla := "1 week" } ∧
    defaultConfig.auto_fix_priorities.contains
      (assess finding code_context rule_details modelResult jsonParse (some e)).priority = true ∧
    (∀ (fp : FPAnalysis) (ff : Option String) (fr : Option FixResult),
      isFalsePositiveVerdict defaultConfig fp = false →
      processDecision defaultConfig fp
        (assess finding code_context rule_details modelResult jsonParse (some e)) ff fr ≠
        .trackOnly) := by
  refine ⟨rfl, rfl, fun fp ff fr hfp => ?_⟩
  unfold processDecision
  rw [hfp]
  simp only [Bool.false_eq_true, if_false]
  have hc : defaultConfig.auto_fix_priorities.contains
      (assess finding code_context rule_details modelResult jsonParse (some e)).priority =
        true := rfl
  rw [if_pos hc]
  cases ff <;> cases fr <;> simp <;> split_ifs <;> simp

/-- Witness for `assess_exception_fallback` at concrete inputs. -/
theorem assess_exception_fallback_witness :
    isFalsePositiveVerdict defaultConfig fpNegative = false ∧
    processDecision defaultConfig fpNegative
      (assess sampleFinding "int x;" none (.error "down") (fun _ => none) (some "boom"))
      none none ≠ .trackOnly :=
  ⟨by decide,
   (assess_exception_fallback sampleFinding "int x;" none (.error "down") (fun _ => none)
      "boom").2.2 fpNegative none none (by decide)⟩

/-- C9 counterexample: when the model call fails, the assessment's
confidence is 0.7 (the fallback dict of `_get_contextual_analysis`),
not the claimed default 0.8. -/
theorem contextual_fallback_confidence_cex :
    (assess sampleFinding "int x;" none (.error "model unavailable") (fun _ => none)
        none).confidence = 7/10 ∧
    (7 : ℚ)/10 ≠ 8/10 := by
  constructor
  · rfl
  · norm_num

/-- C9 amended: when the risk assessor's model call fails or its output
cannot be parsed, scoring still completes: the assessment uses the
fallback confidence 0.7 and the generic fallback justification, and the
heuristic sub-scores are unaffected; the 0.8 default applies only when
parsing succeeds but the `confidence` field is absent. -/
theorem contextual_fallback_amended (f : Finding) (cc : String) (rd : Option RuleDetails)
    (jp : String → Option CtxDict) (e : String) (resp : String) :
    ((assess f cc rd (.error e) jp none).confidence = 7/10 ∧
     (assess f cc rd (.error e) jp none).justification =
       "Automated risk assessment based on rule severity and code location" ∧
     (assess f cc rd (.error e) jp none).exploitability = calculate_exploitability f rd ∧
     (assess f cc rd (.error e) jp none).impact = calculate_impact f cc ∧
     (assess f cc rd (.error e) jp none).exposure = calculate_exposure f cc) ∧
    (jp (extractJson resp) = none →
      (assess f cc rd (.ok resp) jp none).confidence = 7/10 ∧
      (assess f cc rd (.ok resp) jp none).justification =
        "Automated risk assessment based on rule severity and code location" ∧
      (assess f cc rd (.ok resp) jp none).exploitability = calculate_exploitability f rd ∧
      (assess f cc rd (.ok resp) jp none).impact = calculate_impact f cc ∧
      (assess f cc rd (.ok resp) jp none).exposure = calculate_exposure f cc) ∧
    (∀ d : CtxDict, jp (extractJson resp) = some d → d.confidence = none →
      (assess f cc rd (.ok resp) jp none).confidence = 8/10) := by
  refine ⟨⟨rfl, rfl, rfl, rfl, rfl⟩, fun hnone => ?_, fun d hsome hconf => ?_⟩
  · have hctx : get_contextual_analysis (.ok resp) jp = fallbackCtx := by
      simp only [get_contextual_analysis, hnone]
    refine ⟨?_, ?_, rfl, rfl, rfl⟩
    · show (get_contextual_analysis (.ok resp) jp).confidence.getD _ = _
      rw [hctx]
      rfl
    · show (get_contextual_analysis (.ok resp) jp).justification.getD _ = _
      rw [hctx]
      rfl
  · have hctx : get_contextual_analysis (.ok resp) jp = d := by
      simp only [get_contextual_analysis, hsome]
    show (get_contextual_analysis (.ok resp) jp).confidence.getD _ = _
    rw [hctx, hconf]
    rfl

/-- A parse stub that never yields a JSON object. -/
def jpNone : String → Option CtxDict := fun _ => none

/-- A parse stub that yields a JSON object with no `confidence` field. -/
def jpNoConf : String → Option CtxDict :=
  fun _ => some { justification := none, business_context := none, confidence := none }

/-- A parse stub that yields confidence 1 (the maximum of the
documented range) with fixed text fields. -/
def jpConfOne : String → Option CtxDict :=
  fun _ => some { justification := some "j", business_context := some "b", confidence := some 1 }

/-- Witness for `contextual_fallback_amended` at concrete inputs. -/
theorem contextual_fallback_amended_witness :
    (jpNone (extractJson "no json here") = none ∧
     (assess sampleFinding "int x;" none (.ok "no json here") jpNone none).confidence = 7/10) ∧
    (jpNoConf (extractJson "\x7b\x7d") = some ⟨none, none, none⟩ ∧
     (assess sampleFinding "int x;" none (.ok "\x7b\x7d") jpNoConf none).confidence = 8/10) :=
  ⟨⟨rfl,
    ((contextual_fallback_amended sampleFinding "int x;" none jpNone "e" "no json here").2.1
        rfl).1⟩,
   ⟨rfl,
    (contextual_fallback_amended sampleFinding "int x;" none jpNoConf "e" "\x7b\x7d").2.2
      ⟨none, none, none⟩ rfl rfl⟩⟩

/-- Helper: scenario A's heuristic sub-scores, computed from the
embedded score functions. -/
theorem scenarioA_subscores :
    calculate_exploitability scenarioAFinding none = 6 ∧
    calculate_impact scenarioAFinding scenarioAContext = 9 ∧
    calculate_exposure scenarioAFinding scenarioAContext = 5 := by
  decide

/-- Helper: scenario A's priority, for any model outcome whose
resulting confidence is at most 1. -/
theorem scenarioA_priority_le_one (mr : Except String String) (jp : String → Option CtxDict)
    (hconf : (assess scenarioAFinding scenarioAContext none mr jp none).confidence ≤ 1) :
    (assess scenarioAFinding scenarioAContext none mr jp none).priority = "P3" := by
  have hc : (assess scenarioAFinding scenarioAContext none mr jp none).confidence =
      (get_contextual_analysis mr jp).confidence.getD (8/10) := rfl
  rw [hc] at hconf
  show calculate_priority ((calculate_exploitability scenarioAFinding none : ℚ) *
      calculate_impact scenarioAFinding scenarioAContext *
      calculate_exposure scenarioAFinding scenarioAContext / 100 *
      (get_contextual_analysis mr jp).confidence.getD (8/10)) = "P3"
  rw [scenarioA_subscores.1, scenarioA_subscores.2.1, scenarioA_subscores.2.2]
  set c := (get_contextual_analysis mr jp).confidence.getD (8/10) with hcdef
  unfold calculate_priority
  have h8 : ¬ (((6 : Nat) : ℚ) * ((9 : Nat) : ℚ) * ((5 : Nat) : ℚ) / 100 * c ≥ 8) := by
    push_cast
    nlinarith
  have h6 : ¬ (((6 : Nat) : ℚ) * ((9 : Nat) : ℚ) * ((5 : Nat) : ℚ) / 100 * c ≥ 6) := by
    push_cast
    nlinarith
  have h4 : ¬ (((6 : Nat) : ℚ) * ((9 : Nat) : ℚ) * ((5 : Nat) : ℚ) / 100 * c ≥ 4) := by
    push_cast
    nlinarith
  rw [if_neg h8, if_neg h6, if_neg h4]

/-- Helper: any finding whose priority is outside the auto-fix set and
which is not a false positive ends in the tracking-only branch. -/
theorem trackOnly_of_unlisted_priority (cfg : AgentConfig) (fp : FPAnalysis)
    (a : RiskAssessment) (ff : Option String) (fr : Option FixResult)
    (hfp : isFalsePositiveVerdict cfg fp = false)
    (hpri : cfg.auto_fix_priorities.contains a.priority = false) :
    processDecision cfg fp a ff fr = .trackOnly := by
  unfold processDecision
  rw [hfp, hpri]
  simp

/-- C3 counterexample: for scenario A (rule `java:S2259`, severity
HIGH, file `src/main/UserService.java`, neutral context) the
sub-scores are 6/9/5 as claimed, but even at the maximal documented
confidence 1.0 the priority is P3 — not "P1 or higher" — so the
pipeline tracks the finding and makes no fix attempt. -/
theorem scenarioA_cex :
    (assess scenarioAFinding scenarioAContext none (.ok "\x7b\x7d") jpConfOne
        none).exploitability = 6 ∧
    (assess scenarioAFinding scenarioAContext none (.ok "\x7b\x7d") jpConfOne none).impact = 9 ∧
    (assess scenarioAFinding scenarioAContext none (.ok "\x7b\x7d") jpConfOne none).exposure = 5 ∧
    (assess scenarioAFinding scenarioAContext none (.ok "\x7b\x7d") jpConfOne
        none).confidence = 1 ∧
    (assess scenarioAFinding scenarioAContext none (.ok "\x7b\x7d") jpConfOne
        none).priority = "P3" ∧
    identify_pattern scenarioAFinding.rule_key = some "null_pointer" ∧
    processDecision defaultConfig fpNegative
      (assess scenarioAFinding scenarioAContext none (.ok "\x7b\x7d") jpConfOne none)
      (some "file contents") none = .trackOnly := by
  have hpri := scenarioA_priority_le_one (.ok "\x7b\x7d") jpConfOne (le_of_eq rfl)
  refine ⟨rfl, rfl, rfl, rfl, hpri, rfl, ?_⟩
  refine trackOnly_of_unlisted_priority defaultConfig fpNegative _ _ _ (by decide) ?_
  rw [hpri]
  decide

/-- C3 amended: for scenario A, exploitability is 6 (severity-table
default), impact is 9 (path contains "user"), exposure is 5 (default),
and `risk_score = 2.7 * confidence`; hence for any model confidence at
most 1 the priority is P3 — below the default auto-fix set — so no fix
attempt is made (even though `null_pointer` is in the fixable set). -/
theorem scenarioA_amended (mr : Except String String) (jp : String → Option CtxDict)
    (hconf : (assess scenarioAFinding scenarioAContext none mr jp none).confidence ≤ 1) :
    (assess scenarioAFinding scenarioAContext none mr jp none).exploitability = 6 ∧
    (assess scenarioAFinding scenarioAContext none mr jp none).impact = 9 ∧
    (assess scenarioAFinding scenarioAContext none mr jp none).exposure = 5 ∧
    (assess scenarioAFinding scenarioAContext none mr jp none).risk_score =
      27/10 * (assess scenarioAFinding scenarioAContext none mr jp none).confidence ∧
    (assess scenarioAFinding scenarioAContext none mr jp none).priority = "P3" ∧
    defaultConfig.auto_fix_priorities.contains
      (assess scenarioAFinding scenarioAContext none mr jp none).priority = false ∧
    (∀ (fp : FPAnalysis) (ff : Option String) (fr : Option FixResult),
      isFalsePositiveVerdict defaultConfig fp = false →
      processDecision defaultConfig fp
        (assess scenarioAFinding scenarioAContext none mr jp none) ff fr = .trackOnly) := by
  have hpri := scenarioA_priority_le_one mr jp hconf
  have hrs : (assess scenarioAFinding scenarioAContext none mr jp none).risk_score =
      27/10 * (assess scenarioAFinding scenarioAContext none mr jp none).confidence := by
    show ((calculate_exploitability scenarioAFinding none : ℚ) *
        calculate_impact scenarioAFinding scenarioAContext *
        calculate_exposure scenarioAFinding scenarioAContext) / 100 *
        (get_contextual_analysis mr jp).confidence.getD (8/10) = _
    rw [scenarioA_subscores.1, scenarioA_subscores.2.1, scenarioA_subscores.2.2]
    show _ = 27/10 * (get_contextual_analysis mr jp).confidence.getD (8/10)
    push_cast
    ring
  have hcontains : defaultConfig.auto_fix_priorities.contains
      (assess scenarioAFinding scenarioAContext none mr jp none).priority = false := by
    rw [hpri]
    decide
  exact ⟨rfl, rfl, rfl, hrs, hpri, hcontains, fun fp ff fr hfp =>
    trackOnly_of_unlisted_priority defaultConfig fp _ ff fr hfp hcontains⟩

/-- Witness for `scenarioA_amended` at the confidence-1 parse stub. -/
theorem scenarioA_amended_witness :
    (assess scenarioAFinding scenarioAContext none (.ok "\x7b\x7d") jpConfOne
        none).confidence ≤ 1 ∧
    (assess scenarioAFinding scenarioAContext none (.ok "\x7b\x7d") jpConfOne
        none).impact = 9 :=
  ⟨le_of_eq rfl,
   (scenarioA_amended (.ok "\x7b\x7d") jpConfOne (le_of_eq rfl)).2.1⟩

/-- Helper: a detected hard syntax failure forces `is_safe = false`,
whatever the other checks produced. -/
theorem is_safe_false_of_syntax_errors (original fixed language : String)
    (hsyn : has_obvious_syntax_errors fixed language = true) :
    (validate_fix original fixed language).is_safe = false := by
  unfold validate_fix
  simp only [hsyn]
  simp

/-- C2 counterexample: for the detected language `python` (`.py`
files), a fixed code with unbalanced braces passes the syntax check —
brace/paren balancing is only applied to the brace-using languages —
and the validation is `is_safe = true`. -/
theorem syntax_dominance_cex :
    fix_detect_language "app.py" = "python" ∧
    countChar "b = \x7b1" lbrace ≠ countChar "b = \x7b1" rbrace ∧
    (validate_fix "a = 1" "b = \x7b1" "python").is_safe = true := by
  refine ⟨rfl, by decide, by decide⟩

/-- C2 amended: `is_safe = false` whenever the fixed code has
unbalanced bracket counts, or an odd count of unescaped single or
double quotes, or — when the detected language is one of java,
javascript, typescript, c, cpp, csharp, go — unbalanced brace or paren
counts; this dominates every other check. -/
theorem syntax_dominance_amended (original fixed language : String)
    (h : (brace_langs.contains language = true ∧
          (countChar fixed lbrace ≠ countChar fixed rbrace ∨
           countChar fixed lparen ≠ countChar fixed rparen)) ∨
         countChar fixed lbrack ≠ countChar fixed rbrack ∨
         countUnescaped fixed dquote % 2 = 1 ∨
         countUnescaped fixed squote % 2 = 1) :
    (validate_fix original fixed language).is_safe = false := by
  refine is_safe_false_of_syntax_errors original fixed language ?_
  unfold has_obvious_syntax_errors
  split
  · rfl
  · rename_i h1
    split
    · rfl
    · rename_i h2
      split
      · rfl
      · rename_i h3
        exfalso
        push_neg at h3
        rcases h with ⟨hl, hu⟩ | hb | hq | hq
        · exact h1 ⟨hl, hu⟩
        · exact h2 hb
        · omega
        · omega

/-- Witness for `syntax_dominance_amended`: an unbalanced parenthesis
in Java code is a hard failure. -/
theorem syntax_dominance_amended_witness :
    countChar "(" lparen ≠ countChar "(" rparen ∧
    (validate_fix "a" "(" "java").is_safe = false :=
  ⟨by decide,
   syntax_dominance_amended "a" "(" "java" (Or.inl ⟨by decide, Or.inr (by decide)⟩)⟩

/-- The number of start positions at which `needle` occurs in `hay`
(used only to state the spec's reading of claim C8). -/
def countOccurrences (hay needle : String) : Nat :=
  (List.range hay.data.length).countP (fun i => needle.data.isPrefixOf (hay.data.drop i))

/-- Modelled from the spec's words (claim C8), for comparison with the
code: the total count of OCCURRENCES of the error-handling keywords in
the lower-cased text. -/
def specOccurrenceTotal (s : String) : Nat :=
  (error_handling_keywords.map (fun kw => countOccurrences (lowerStr s) kw)).sum

/-- C8 counterexample: original `"raise raise"` versus fixed
`"raise"` — the fixed code has strictly fewer keyword occurrences
(1 < 2), yet the validator does not emit the error-handling warning,
because the code counts distinct keywords present (1 = 1), not
occurrences. -/
theorem error_handling_warning_cex :
    specOccurrenceTotal "raise" < specOccurrenceTotal "raise raise" ∧
    errorHandlingCount "raise" = errorHandlingCount "raise raise" ∧
    "Error handling may have been removed" ∉
      (validate_fix "raise raise" "raise" "python").warnings := by
  refine ⟨by decide, by decide, by decide⟩

/-- Helper: the interpolated size-change warning never coincides with
the error-handling warning (their first characters differ). -/
theorem size_msg_ne_error_handling_msg (a b : Nat) :
    ("Significant size change: " ++ toString a ++ " -> " ++ toString b ++ " lines") ≠
      "Error handling may have been removed" := by
  intro h
  have h2 := congrArg (fun s => s.data.head?) h
  simp only [show ∀ s t : String, (s ++ t).data = s.data ++ t.data from fun _ _ => rfl] at h2
  simp at h2

/-- C8 amended: the validator emits the "error handling may have been
removed" warning exactly when the number of DISTINCT error-handling
keywords (try/catch/except/finally/throw/raise, case-insensitive,
substring match) present in the fixed code is lower than the number
present in the original code. -/
theorem error_handling_warning_amended (original fixed language : String) :
    ("Error handling may have been removed" ∈
      (validate_fix original fixed language).warnings) ↔
      errorHandlingCount fixed < errorHandlingCount original := by
  unfold validate_fix
  simp only [List.mem_append]
  constructor
  · rintro ((h | h) | h)
    · split at h
      · rcases List.mem_singleton.mp h with h
        exact absurd h.symm (size_msg_ne_error_handling_msg _ _)
      · simp at h
    · split at h
      · rename_i hc
        exact of_decide_eq_true hc
      · simp at h
    · split at h
      · rcases List.mem_singleton.mp h with h
        simp at h
      · simp at h
  · intro h
    refine Or.inl (Or.inr ?_)
    rw [if_pos (decide_eq_true h)]
    exact List.mem_singleton.mpr rfl

/-- Helper: when the false-positive gate does not fire, the decision
is never a false-positive disposition. -/
theorem not_falsePositive_of_verdict_false (cfg : AgentConfig) (fp : FPAnalysis)
    (a : RiskAssessment) (ff : Option String) (fr : Option FixResult) (b : Bool)
    (hv : isFalsePositiveVerdict cfg fp = false) :
    processDecision cfg fp a ff fr ≠ .falsePositive b := by
  unfold processDecision
  rw [hv]
  simp only [Bool.false_eq_true, if_false]
  split
  · cases ff <;> cases fr <;> simp <;> split_ifs <;> simp
  · simp

/-- C4: with the default configuration, the automatic won't-fix
transition is issued only when the verdict is true, confidence is at
least the is-false-positive threshold 0.85, and confidence exceeds the
require-review threshold 0.70; confidence at or below 0.70 never
triggers it. -/
theorem wontfix_thresholds (fp : FPAnalysis) (a : RiskAssessment) (ff : Option String)
    (fr : Option FixResult) :
    (processDecision defaultConfig fp a ff fr = .falsePositive true →
      fp.is_false_positive = true ∧ 85/100 ≤ fp.confidence ∧ 70/100 < fp.confidence) ∧
    (fp.confidence ≤ 70/100 → processDecision defaultConfig fp a ff fr ≠ .falsePositive true) := by
  have key : processDecision defaultConfig fp a ff fr = .falsePositive true →
      isFalsePositiveVerdict defaultConfig fp = true ∧
      wontfixTransition defaultConfig fp = true := by
    intro h
    cases hv : isFalsePositiveVerdict defaultConfig fp
    · exact absurd h (not_falsePositive_of_verdict_false defaultConfig fp a ff fr true hv)
    · refine ⟨rfl, ?_⟩
      unfold processDecision at h
      rw [hv] at h
      simp only [if_true] at h
      cases hq : wontfixTransition defaultConfig fp
      · rw [hq] at h
        simp at h
      · rfl
  constructor
  · intro h
    obtain ⟨hv, hw⟩ := key h
    unfold isFalsePositiveVerdict at hv
    unfold wontfixTransition at hw
    simp only [Bool.and_eq_true, decide_eq_true_eq] at hv hw
    exact ⟨hv.1, hv.2, hw.2⟩
  · intro hc h
    obtain ⟨hv, hw⟩ := key h
    unfold wontfixTransition at hw
    simp only [Bool.and_eq_true, decide_eq_true_eq] at hw
    exact absurd hw.2 (not_lt.mpr hc)

/-- Witness for `wontfix_thresholds`: at confidence 0.5 no automatic
won't-fix transition can be issued. -/
theorem wontfix_thresholds_witness :
    ({ is_false_positive := true, confidence := 1/2, reasoning := "",
       evidence := [], recommendation := "" } : FPAnalysis).confidence ≤ 70/100 ∧
    processDecision defaultConfig
      { is_false_positive := true, confidence := 1/2, reasoning := "",
        evidence := [], recommendation := "" }
      { risk_score := 8, priority := "P0", exploitability := 10, impact := 10,
        exposure := 8, confidence := 1, justification := "", business_context := "",
        recommended_sla := "24 hours" } none none ≠ .falsePositive true :=
  ⟨by norm_num,
   (wontfix_thresholds
      { is_false_positive := true, confidence := 1/2, reasoning := "",
        evidence := [], recommendation := "" }
      { risk_score := 8, priority := "P0", exploitability := 10, impact := 10,
        exposure := 8, confidence := 1, justification := "", business_context := "",
        recommended_sla := "24 hours" } none none).2 (by norm_num)⟩

/-- A P0 assessment used to exercise the auto-fix branch. -/
def p0Assessment : RiskAssessment :=
  { risk_score := 8, priority := "P0", exploitability := 10, impact := 10,
    exposure := 8, confidence := 1, justification := "", business_context := "",
    recommended_sla := "24 hours" }

/-- A fix result whose validation failed (`is_safe = false`) but with
high model confidence. -/
def unsafeFixResult : FixResult :=
  { fixed_code := "int x = 0;", diff := "", explanation := "",
    test_suggestions := [],
    validation := { is_safe := false, checks_passed := [],
                    checks_failed := ["No changes were made"], warnings := [] },
    confidence := 95/100 }

/-- C5 counterexample: the fix generator returned a `FixResult`
(merely not marked safe), yet the pipeline escalates with "Complex fix
required" — the two reasons are distinguished by existence AND safety,
not by existence alone. -/
theorem escalation_reason_cex :
    (some unsafeFixResult).isSome = true ∧
    processDecision defaultConfig fpNegative p0Assessment (some "file contents")
      (some unsafeFixResult) = .escalate "Complex fix required" ∧
    ("Complex fix required" : String) ≠ "Low confidence fix" := by
  refine ⟨rfl, by decide, by decide⟩

/-- C5 amended: in the auto-fix phase (not a false positive, priority
in the auto-fix set, full file available), the escalation reason is
"Low confidence fix" exactly when a `FixResult` exists, is marked
safe, and its confidence is below the threshold; and "Complex fix
required" exactly when no `FixResult` exists or the one returned is
not marked safe. -/
theorem escalation_reason_amended (cfg : AgentConfig) (fp : FPAnalysis) (a : RiskAssessment)
    (ff : String) (fr : Option FixResult)
    (hfp : isFalsePositiveVerdict cfg fp = false)
    (hpri : cfg.auto_fix_priorities.contains a.priority = true) :
    (processDecision cfg fp a (some ff) fr = .escalate "Low confidence fix" ↔
      ∃ r, fr = some r ∧ r.validation.is_safe = true ∧ r.confidence < cfg.fix_min_confidence) ∧
    (processDecision cfg fp a (some ff) fr = .escalate "Complex fix required" ↔
      fr = none ∨ ∃ r, fr = some r ∧ r.validation.is_safe = false) := by
  unfold processDecision
  rw [hfp, hpri]
  simp only [Bool.false_eq_true, if_false, if_true]
  cases fr with
  | none => simp
  | some r =>
    dsimp only
    cases hs : r.validation.is_safe with
    | false =>
      rw [if_neg (by simp [hs])]
      constructor
      · constructor
        · intro h
          simp at h
        · rintro ⟨r', hr', hsafe, _⟩
          rw [Option.some_inj.mp hr'] at hs
          rw [hs] at hsafe
          exact absurd hsafe (by simp)
      · constructor
        · intro _
          exact Or.inr ⟨r, rfl, hs⟩
        · intro _
          rfl
    | true =>
      rw [if_pos rfl]
      by_cases hc : cfg.fix_min_confidence ≤ r.confidence
      · rw [if_pos (decide_eq_true hc)]
        constructor
        · constructor
          · intro h
            simp at h
          · rintro ⟨r', hr', _, hlow⟩
            rw [Option.some_inj.mp hr'] at hc
            exact absurd hc (not_le.mpr hlow)
        · constructor
          · intro h
            simp at h
          · rintro (h | ⟨r', hr', hsafe⟩)
            · simp at h
            · rw [Option.some_inj.mp hr'] at hs
              rw [hs] at hsafe
              simp at hsafe
      · rw [if_neg (by simpa using hc)]
        constructor
        · constructor
          · intro _
            exact ⟨r, rfl, hs, not_le.mp hc⟩
          · intro _
            rfl
        · constructor
          · intro h
            simp at h
          · rintro (h | ⟨r', hr', hsafe⟩)
            · simp at h
            · rw [Option.some_inj.mp hr'] at hs
              rw [hs] at hsafe
              simp at hsafe

/-- Witness for `escalation_reason_amended` at a concrete unsafe fix
result. -/
theorem escalation_reason_amended_witness :
    isFalsePositiveVerdict defaultConfig fpNegative = false ∧
    defaultConfig.auto_fix_priorities.contains p0Assessment.priority = true ∧
    (processDecision defaultConfig fpNegative p0Assessment (some "file")
        (some unsafeFixResult) = .escalate "Complex fix required" ↔
      (some unsafeFixResult : Option FixResult) = none ∨
        ∃ r, (some unsafeFixResult : Option FixResult) = some r ∧
          r.validation.is_safe = false) :=
  ⟨by decide, by decide,
   (escalation_reason_amended defaultConfig fpNegative p0Assessment "file"
      (some unsafeFixResult) (by decide) (by decide)).2⟩

/-- Helper: before the reset timestamp, `_reset_rate_limits_if_needed`
is the identity. -/
theorem reset_noop_of_before (now : Nat) (s : RateLimitState)
    (h : now < s.rate_limit_reset_time) :
    reset_rate_limits_if_needed now s = s := by
  unfold reset_rate_limits_if_needed
  rw [if_neg (not_le.mpr h)]

/-- Helper: the unfolded equation of `check_rate_limit` for "pr". -/
theorem check_rate_limit_pr (cfg : AgentConfig) (now : Nat) (s : RateLimitState) :
    check_rate_limit cfg "pr" now s =
      (decide ((reset_rate_limits_if_needed now s).prs_created_this_hour <
          cfg.max_prs_per_hour),
       reset_rate_limits_if_needed now s) := rfl

/-- Helper: the unfolded equation of `check_rate_limit` for "comment". -/
theorem check_rate_limit_comment (cfg : AgentConfig) (now : Nat) (s : RateLimitState) :
    check_rate_limit cfg "comment" now s =
      (decide ((reset_rate_limits_if_needed now s).comments_posted_this_hour <
          cfg.max_comments_per_hour),
       reset_rate_limits_if_needed now s) := rfl

/-- Helper: the unfolded equation of a PR step. -/
theorem rateStep_createPR (cfg : AgentConfig) (s : RateLimitState) (now : Nat)
    (success : Bool) :
    rateStep cfg s (.createPR now success) =
      (if (decide ((reset_rate_limits_if_needed now s).prs_created_this_hour <
              cfg.max_prs_per_hour) && success) = true then
        { reset_rate_limits_if_needed now s with
            prs_created_this_hour :=
              (reset_rate_limits_if_needed now s).prs_created_this_hour + 1 }
      else reset_rate_limits_if_needed now s) := rfl

/-- Helper: the unfolded equation of a comment step (the increment
does not depend on the action's success). -/
theorem rateStep_postComment (cfg : AgentConfig) (s : RateLimitState) (now : Nat)
    (success : Bool) :
    rateStep cfg s (.postComment now success) =
      (if decide ((reset_rate_limits_if_needed now s).comments_posted_this_hour <
              cfg.max_comments_per_hour) = true then
        { reset_rate_limits_if_needed now s with
            comments_posted_this_hour :=
              (reset_rate_limits_if_needed now s).comments_posted_this_hour + 1 }
      else reset_rate_limits_if_needed now s) := rfl

/-- Helper: one gated action inside the current window preserves the
reset timestamp and never pushes the PR counter past the cap. -/
theorem rateStep_within (cfg : AgentConfig) (s : RateLimitState) (op : RateOp)
    (ht : op.time < s.rate_limit_reset_time)
    (hp : s.prs_created_this_hour ≤ cfg.max_prs_per_hour) :
    (rateStep cfg s op).rate_limit_reset_time = s.rate_limit_reset_time ∧
    (rateStep cfg s op).prs_created_this_hour ≤ cfg.max_prs_per_hour := by
  cases op with
  | createPR now success =>
    have ht' : now < s.rate_limit_reset_time := ht
    rw [rateStep_createPR, reset_noop_of_before now s ht']
    by_cases hallow : s.prs_created_this_hour < cfg.max_prs_per_hour
    · cases success
      · simp
        exact hp
      · simp [hallow]
        omega
    · simp [hallow]
      exact hp
  | postComment now success =>
    have ht' : now < s.rate_limit_reset_time := ht
    rw [rateStep_postComment, reset_noop_of_before now s ht']
    split
    · exact ⟨rfl, hp⟩
    · exact ⟨rfl, hp⟩

/-- C7 amended: the rate-limit window invariants.  (1) Whenever now
reaches or passes the reset timestamp, both counters reset to zero and
the timestamp becomes now + one hour.  (2) With the PR counter at the
cap and the window still open, `check("pr")` is false, and (3) a PR
action in that state leaves the state unchanged — the limit holds
until the reset timestamp passes.  (4) After the reset fires inside a
check, the counters are exactly zero.  (5) The PR counter is
incremented only after a successful PR creation: an unsuccessful PR
action changes nothing beyond the reset.  (6) The comment counter, by
contrast, is incremented after every rate-check-passed comment
attempt, whether or not the post succeeded — the call sites discard
`add_comment`'s boolean.  (7) Any sequence of actions inside one
window keeps the PR counter at or below the cap and never moves the
reset timestamp. -/
theorem rate_limit_invariants :
    (∀ (now : Nat) (s : RateLimitState), s.rate_limit_reset_time ≤ now →
      reset_rate_limits_if_needed now s =
        { prs_created_this_hour := 0, comments_posted_this_hour := 0,
          rate_limit_reset_time := now + 3600 }) ∧
    (∀ (cfg : AgentConfig) (s : RateLimitState) (now : Nat),
      s.prs_created_this_hour = cfg.max_prs_per_hour → now < s.rate_limit_reset_time →
      (check_rate_limit cfg "pr" now s).1 = false) ∧
    (∀ (cfg : AgentConfig) (s : RateLimitState) (now : Nat) (b : Bool),
      s.prs_created_this_hour = cfg.max_prs_per_hour → now < s.rate_limit_reset_time →
      rateStep cfg s (.createPR now b) = s) ∧
    (∀ (cfg : AgentConfig) (s : RateLimitState) (now : Nat), s.rate_limit_reset_time ≤ now →
      ((check_rate_limit cfg "pr" now s).2).prs_created_this_hour = 0 ∧
      ((check_rate_limit cfg "pr" now s).2).comments_posted_this_hour = 0) ∧
    (∀ (cfg : AgentConfig) (s : RateLimitState) (now : Nat),
      rateStep cfg s (.createPR now false) = reset_rate_limits_if_needed now s) ∧
    (∀ (cfg : AgentConfig) (s : RateLimitState) (now : Nat) (b : Bool),
      (check_rate_limit cfg "comment" now s).1 = true →
      (rateStep cfg s (.postComment now b)).comments_posted_this_hour =
        ((check_rate_limit cfg "comment" now s).2).comments_posted_this_hour + 1) ∧
    (∀ (cfg : AgentConfig) (s : RateLimitState) (ops : List RateOp),
      (∀ op ∈ ops, op.time < s.rate_limit_reset_time) →
      s.prs_created_this_hour ≤ cfg.max_prs_per_hour →
      (runOps cfg s ops).prs_created_this_hour ≤ cfg.max_prs_per_hour ∧
      (runOps cfg s ops).rate_limit_reset_time = s.rate_limit_reset_time) := by
  refine ⟨?res, ?chk, ?stp, ?zero, ?prSucc, ?cInc, ?trace⟩
  case res =>
    intro now s h
    unfold reset_rate_limits_if_needed
    rw [if_pos h]
  case chk =>
    intro cfg s now hmax hnow
    rw [check_rate_limit_pr, reset_noop_of_before now s hnow]
    simp [hmax]
  case stp =>
    intro cfg s now b hmax hnow
    rw [rateStep_createPR, reset_noop_of_before now s hnow]
    simp [hmax]
  case zero =>
    intro cfg s now h
    rw [check_rate_limit_pr]
    have hr : reset_rate_limits_if_needed now s =
        { prs_created_this_hour := 0, comments_posted_this_hour := 0,
          rate_limit_reset_time := now + 3600 } := by
      unfold reset_rate_limits_if_needed
      rw [if_pos h]
    rw [hr]
    exact ⟨rfl, rfl⟩
  case prSucc =>
    intro cfg s now
    rw [rateStep_createPR]
    simp
  case cInc =>
    intro cfg s now b h
    rw [check_rate_limit_comment] at h
    rw [rateStep_postComment, if_pos h, check_rate_limit_comment]
  case trace =>
    intro cfg s ops
    induction ops generalizing s with
    | nil =>
      intro _ hp
      exact ⟨hp, rfl⟩
    | cons op rest ih =>
      intro hts hp
      have htop : op.time < s.rate_limit_reset_time := hts op (List.mem_cons_self op rest)
      obtain ⟨hres, hcap⟩ := rateStep_within cfg s op htop hp
      have hrest : ∀ o ∈ rest, o.time < (rateStep cfg s op).rate_limit_reset_time := by
        intro o ho
        rw [hres]
        exact hts o (List.mem_cons_of_mem op ho)
      obtain ⟨h1, h2⟩ := ih (rateStep cfg s op) hrest hcap
      refine ⟨h1, ?_⟩
      have hstep : runOps cfg s (op :: rest) = runOps cfg (rateStep cfg s op) rest := rfl
      rw [hstep, h2, hres]

/-- A window state at the default PR cap. -/
def rateStateAtCap : RateLimitState :=
  { prs_created_this_hour := 5, comments_posted_this_hour := 0,
    rate_limit_reset_time := 1000 }

/-- Witness for `rate_limit_invariants` at concrete states. -/
theorem rate_limit_invariants_witness :
    rateStateAtCap.prs_created_this_hour = defaultConfig.max_prs_per_hour ∧
    (500 : Nat) < rateStateAtCap.rate_limit_reset_time ∧
    (check_rate_limit defaultConfig "pr" 500 rateStateAtCap).1 = false ∧
    rateStateAtCap.rate_limit_reset_time ≤ 1000 ∧
    reset_rate_limits_if_needed 1000 rateStateAtCap =
      { prs_created_this_hour := 0, comments_posted_this_hour := 0,
        rate_limit_reset_time := 4600 } :=
  ⟨rfl, by decide,
   rate_limit_invariants.2.1 defaultConfig rateStateAtCap 500 rfl (by decide),
   by decide,
   rate_limit_invariants.1 1000 rateStateAtCap (by decide)⟩

/-- A fresh rate-limit window with both counters at zero. -/
def freshWindowState : RateLimitState :=
  { prs_created_this_hour := 0, comments_posted_this_hour := 0,
    rate_limit_reset_time := 1000 }

/-- C7 counterexample: the comment counter is NOT incremented only
after the comment is posted successfully — a comment attempt whose
post fails (`add_comment` returned False, discarded by the call site)
still increments the counter from 0 to 1 once the rate check passes. -/
theorem rate_limit_comment_increment_cex :
    (check_rate_limit defaultConfig "comment" 10 freshWindowState).1 = true ∧
    (rateStep defaultConfig freshWindowState
        (.postComment 10 false)).comments_posted_this_hour = 1 ∧
    (rateStep defaultConfig freshWindowState
        (.postComment 10 false)).comments_posted_this_hour ≠
      freshWindowState.comments_posted_this_hour := by
  refine ⟨rfl, rfl, by decide⟩

/-! ## Lemmas on first/last occurrence indices (for claim C6) -/

/-- Helper: a found first index is inside the list. -/
theorem firstIdxOf_lt_length {c : Char} :
    ∀ {cs : List Char} {i : Nat}, firstIdxOf c cs = some i → i < cs.length := by
  intro cs
  induction cs with
  | nil => intro i h; simp [firstIdxOf] at h
  | cons x xs ih =>
    intro i h
    unfold firstIdxOf at h
    split at h
    · cases h
      simp
    · cases hx : firstIdxOf c xs with
      | none => rw [hx] at h; simp at h
      | some j =>
        rw [hx] at h
        simp at h
        subst h
        have := ih hx
        simp
        omega

/-- Helper: the element at a found first index is the character. -/
theorem firstIdxOf_getElem {c : Char} :
    ∀ {cs : List Char} {i : Nat}, firstIdxOf c cs = some i → cs[i]? = some c := by
  intro cs
  induction cs with
  | nil => intro i h; simp [firstIdxOf] at h
  | cons x xs ih =>
    intro i h
    unfold firstIdxOf at h
    split at h
    · cases h
      rename_i hx
      simp [hx]
    · cases hx : firstIdxOf c xs with
      | none => rw [hx] at h; simp at h
      | some j =>
        rw [hx] at h
        simp at h
        subst h
        simpa using ih hx

/-- Helper: no occurrence of the character before the first index. -/
theorem firstIdxOf_take {c : Char} :
    ∀ {cs : List Char} {i : Nat}, firstIdxOf c cs = some i →
      ∀ x ∈ cs.take i, x ≠ c := by
  intro cs
  induction cs with
  | nil => intro i h; simp [firstIdxOf] at h
  | cons x xs ih =>
    intro i h
    unfold firstIdxOf at h
    split at h
    · cases h
      simp
    · cases hx : firstIdxOf c xs with
      | none => rw [hx] at h; simp at h
      | some j =>
        rw [hx] at h
        simp at h
        subst h
        rename_i hne
        intro y hy
        rw [List.take_succ_cons] at hy
        rcases List.mem_cons.mp hy with hy | hy
        · subst hy
          exact hne
        · exact ih hx y hy

/-- Helper: a found last index is inside the list. -/
theorem lastIdxOf_lt_length {c : Char} {cs : List Char} {e : Nat}
    (h : lastIdxOf c cs = some e) : e < cs.length := by
  unfold lastIdxOf at h
  cases hx : firstIdxOf c cs.reverse with
  | none => rw [hx] at h; simp at h
  | some i =>
    rw [hx] at h
    simp at h
    have hi := firstIdxOf_lt_length hx
    rw [List.length_reverse] at hi
    omega

/-- Helper: the element at a found last index is the character. -/
theorem lastIdxOf_getElem {c : Char} {cs : List Char} {e : Nat}
    (h : lastIdxOf c cs = some e) : cs[e]? = some c := by
  unfold lastIdxOf at h
  cases hx : firstIdxOf c cs.reverse with
  | none => rw [hx] at h; simp at h
  | some i =>
    rw [hx] at h
    simp at h
    have hi := firstIdxOf_lt_length hx
    rw [List.length_reverse] at hi
    have hg := firstIdxOf_getElem hx
    rw [List.getElem?_reverse hi] at hg
    rw [h] at hg
    exact hg

/-- Helper: no occurrence of the character after the last index. -/
theorem lastIdxOf_drop {c : Char} {cs : List Char} {e : Nat}
    (h : lastIdxOf c cs = some e) : ∀ x ∈ cs.drop (e + 1), x ≠ c := by
  unfold lastIdxOf at h
  cases hx : firstIdxOf c cs.reverse with
  | none => rw [hx] at h; simp at h
  | some i =>
    rw [hx] at h
    simp at h
    have hi := firstIdxOf_lt_length hx
    rw [List.length_reverse] at hi
    have htk := firstIdxOf_take hx
    intro x hmem
    have he1 : e + 1 = cs.length - i := by omega
    rw [he1] at hmem
    have hrev : cs.reverse.take i = (cs.drop (cs.length - i)).reverse :=
      List.take_reverse
    refine htk x ?_
    rw [hrev, List.mem_reverse]
    exact hmem

/-- Helper: the brace-window extraction, characterized.  When the
stripped response has its first `\x7b` at index `s` and its last
`\x7d` at index `e ≥ s`, the extracted text is exactly the
characters from `s` through `e`: it starts with the first `\x7b`,
ends with the last `\x7d`, no `\x7b` occurs before it and no `\x7d`
after it. -/
theorem extractJson_spec (r : String) (s e : Nat)
    (hs : firstIdxOf lbrace (pyStrip r).data = some s)
    (he : lastIdxOf rbrace (pyStrip r).data = some e)
    (hse : s ≤ e) :
    (extractJson r).data = (((pyStrip r).data.drop s).take (e + 1 - s)) ∧
    (extractJson r).data.head? = some lbrace ∧
    (extractJson r).data.getLast? = some rbrace ∧
    (∀ x ∈ (pyStrip r).data.take s, x ≠ lbrace) ∧
    (∀ x ∈ (pyStrip r).data.drop (e + 1), x ≠ rbrace) := by
  have helen := lastIdxOf_lt_length he
  have heq : (extractJson r).data = (((pyStrip r).data.drop s).take (e + 1 - s)) := by
    simp only [extractJson, hs, he]
    rw [if_pos (show s < e + 1 by omega)]
  refine ⟨heq, ?_, ?_, firstIdxOf_take hs, lastIdxOf_drop he⟩
  · rw [heq, List.head?_eq_getElem?]
    rw [List.getElem?_take_of_lt (by omega), List.getElem?_drop]
    simpa using firstIdxOf_getElem hs
  · rw [heq, List.getLast?_eq_getElem?]
    have hlen : (((pyStrip r).data.drop s).take (e + 1 - s)).length = e + 1 - s := by
      rw [List.length_take, List.length_drop]
      omega
    rw [hlen]
    rw [List.getElem?_take_of_lt (by omega), List.getElem?_drop]
    have : s + (e + 1 - s - 1) = e := by omega
    rw [this]
    exact lastIdxOf_getElem he

/-- C6: the false-positive analyzer feeds `json.loads` exactly the
substring of the stripped response running from the first `\x7b` to
the last `\x7d` (when that window exists), and uses the parsed
object's fields with `dict.get` defaults; on parse failure it returns
the conservative default (`is_false_positive = false`,
`confidence = 0`, "Manual review required"); on any error during the
model call it returns the analogous conservative default — in no case
does an exception reach the caller (`fp_analyze` is total). -/
theorem fp_parse_robustness :
    (∀ (jp : String → Option FPData) (e : String),
      fp_analyze (.error e) jp = fpErrorDefault e ∧
      (fpErrorDefault e).is_false_positive = false ∧
      (fpErrorDefault e).confidence = 0 ∧
      (fpErrorDefault e).recommendation = "Manual review required due to analysis error") ∧
    (∀ (jp : String → Option FPData) (resp : String),
      jp (extractJson resp) = none →
      fp_analyze (.ok resp) jp = fpParseDefault) ∧
    (fpParseDefault.is_false_positive = false ∧ fpParseDefault.confidence = 0 ∧
      fpParseDefault.recommendation = "Manual review required") ∧
    (∀ (jp : String → Option FPData) (resp : String) (d : FPData),
      jp (extractJson resp) = some d →
      fp_analyze (.ok resp) jp =
        { is_false_positive := d.is_false_positive.getD false
          confidence := d.confidence.getD 0
          reasoning := d.reasoning.getD ""
          evidence := d.evidence.getD []
          recommendation := d.recommendation.getD "" }) ∧
    (∀ (r : String) (s e : Nat),
      firstIdxOf lbrace (pyStrip r).data = some s →
      lastIdxOf rbrace (pyStrip r).data = some e →
      s ≤ e →
      (extractJson r).data = (((pyStrip r).data.drop s).take (e + 1 - s)) ∧
      (extractJson r).data.head? = some lbrace ∧
      (extractJson r).data.getLast? = some rbrace ∧
      (∀ x ∈ (pyStrip r).data.take s, x ≠ lbrace) ∧
      (∀ x ∈ (pyStrip r).data.drop (e + 1), x ≠ rbrace)) := by
  refine ⟨fun jp e => ⟨rfl, rfl, rfl, rfl⟩, fun jp resp h => ?_, ⟨rfl, rfl, rfl⟩,
    fun jp resp d h => ?_, fun r s e hs he hse => extractJson_spec r s e hs he hse⟩
  · show fp_parse_response jp resp = fpParseDefault
    unfold fp_parse_response
    rw [h]
  · show fp_parse_response jp resp = _
    unfold fp_parse_response
    rw [h]

/-- Scenario D's model response: prose with one embedded JSON object. -/
def scenarioDResponse : String :=
  "Sure! \x7b\"is_false_positive\": true, \"confidence\": 0.95\x7d Hope that helps!"

/-- The JSON window of scenario D's response. -/
def scenarioDJson : String := "\x7b\"is_false_positive\": true, \"confidence\": 0.95\x7d"

/-- The parsed object of scenario D. -/
def scenarioDData : FPData :=
  { is_false_positive := some true, confidence := some (95/100), reasoning := none,
    evidence := none, recommendation := none }

/-- A parse stub recognizing exactly scenario D's JSON window. -/
def jpScenarioD : String → Option FPData :=
  fun st => if st = scenarioDJson then some scenarioDData else none

/-- Witness for `fp_parse_robustness`: scenario D end to end — the
embedded object is extracted from the surrounding prose and its fields
are used; a response with no parsable object yields the conservative
default. -/
theorem fp_parse_robustness_witness :
    jpScenarioD (extractJson scenarioDResponse) = some scenarioDData ∧
    fp_analyze (.ok scenarioDResponse) jpScenarioD =
      { is_false_positive := true, confidence := 95/100, reasoning := "",
        evidence := [], recommendation := "" } ∧
    jpScenarioD (extractJson "no braces at all") = none ∧
    fp_analyze (.ok "no braces at all") jpScenarioD = fpParseDefault ∧
    firstIdxOf lbrace (pyStrip scenarioDResponse).data = some 6 ∧
    lastIdxOf rbrace (pyStrip scenarioDResponse).data = some 52 ∧
    (extractJson scenarioDResponse).data.head? = some lbrace :=
  ⟨rfl,
   fp_parse_robustness.2.2.2.1 jpScenarioD scenarioDResponse scenarioDData rfl,
   rfl,
   fp_parse_robustness.2.1 jpScenarioD "no braces at all" rfl,
   rfl, rfl,
   (fp_parse_robustness.2.2.2.2 scenarioDResponse 6 52 rfl rfl (by omega)).2.1⟩

end SonarAgent
